import Mathlib

set_option linter.unusedVariables false

/-!
Verification development for the AI-provider orchestration core of the
suitcaseApp repository (services/aiProviderService.ts, services/groqService.ts,
services/geminiService.ts, services/fallbackService.ts).

The embedding is shallow:
* JSON values are modelled by `JValue`; JavaScript's `JSON.parse` is modelled by
  `jsonParse`, a recursive-descent parser.  Numeric literals are modelled as
  integers; fractional and exponent literals are outside the model (JavaScript
  numbers are floating point), and `JValue.nan` models the `NaN` produced by
  failed numeric coercion.
* Asynchronous functions that may reject are modelled as functions into
  `Except Unit α`; `Except.error` models a rejected promise / thrown exception.
* Each network endpoint is modelled as an oracle fixed in a `World`: the
  outcome a request to that endpoint would have.  Request payload construction
  (prompts, schemas, headers) does not influence the modelled outcome and is
  not modelled.
* `Option JValue` models a JavaScript object-field value, `none` being
  `undefined`.
-/

namespace Suitcase

/-- A JSON value, plus `nan` for the result of failed JavaScript numeric
coercion (never produced by parsing). -/
inductive JValue where
  | null
  | bool (b : Bool)
  | num (n : Int)
  | nan
  | str (s : String)
  | arr (elems : List JValue)
  | obj (fields : List (String × JValue))

instance : Inhabited JValue := ⟨.null⟩

/-- A JavaScript object-field value: `none` models `undefined`. -/
abbrev JSVal := Option JValue

/-! ## A model of `JSON.parse` -/

def isWsChar (c : Char) : Bool := c = ' ' || c = '\t' || c = '\n' || c = '\r'

def skipWs : List Char → List Char
  | [] => []
  | c :: cs => if isWsChar c then skipWs cs else c :: cs

def hexVal (c : Char) : Option Nat :=
  if '0' ≤ c && c ≤ '9' then some (c.toNat - 48)
  else if 'a' ≤ c && c ≤ 'f' then some (c.toNat - 87)
  else if 'A' ≤ c && c ≤ 'F' then some (c.toNat - 55)
  else none

/-- Parse the body of a JSON string literal (after the opening quote), returning
the decoded characters and the input remaining after the closing quote. -/
def parseStringBody : List Char → Option (List Char × List Char)
  | [] => none
  | '"' :: rest => some ([], rest)
  | '\\' :: 'u' :: a :: b :: c :: d :: rest =>
    match hexVal a, hexVal b, hexVal c, hexVal d with
    | some ha, some hb, some hc, some hd =>
      match parseStringBody rest with
      | some (cs, rest') => some (Char.ofNat (((ha * 16 + hb) * 16 + hc) * 16 + hd) :: cs, rest')
      | none => none
    | _, _, _, _ => none
  | '\\' :: e :: rest =>
    let dec : Option Char :=
      if e = '"' then some '"'
      else if e = '\\' then some '\\'
      else if e = '/' then some '/'
      else if e = 'b' then some '\x08'
      else if e = 'f' then some '\x0c'
      else if e = 'n' then some '\n'
      else if e = 'r' then some '\r'
      else if e = 't' then some '\t'
      else none
    match dec with
    | some ch =>
      match parseStringBody rest with
      | some (cs, rest') => some (ch :: cs, rest')
      | none => none
    | none => none
  | c :: rest =>
    if c.toNat < 32 then none
    else
      match parseStringBody rest with
      | some (cs, rest') => some (c :: cs, rest')
      | none => none

def digitsToNat (ds : List Char) : Nat :=
  ds.foldl (fun a c => a * 10 + (c.toNat - 48)) 0

/-- Parse a JSON integer literal: `-?(0|[1-9][0-9]*)`.  Fractional and exponent
parts are outside the model. -/
def parseNumber (cs : List Char) : Option (Int × List Char) :=
  let core : List Char → Option (Int × List Char) := fun l =>
    match l with
    | '0' :: rest =>
      match rest with
      | d :: _ => if d.isDigit then none else some (0, rest)
      | [] => some (0, [])
    | d :: _ =>
      if d.isDigit then
        let digits := l.takeWhile Char.isDigit
        some ((digitsToNat digits : Int), l.dropWhile Char.isDigit)
      else none
    | [] => none
  match cs with
  | '-' :: rest =>
    match core rest with
    | some (n, rest') => some (-n, rest')
    | none => none
  | _ => core cs

mutual

def parseVal : Nat → List Char → Option (JValue × List Char)
  | 0, _ => none
  | fuel + 1, cs =>
    match skipWs cs with
    | 'n' :: 'u' :: 'l' :: 'l' :: rest => some (.null, rest)
    | 't' :: 'r' :: 'u' :: 'e' :: rest => some (.bool true, rest)
    | 'f' :: 'a' :: 'l' :: 's' :: 'e' :: rest => some (.bool false, rest)
    | '"' :: rest =>
      match parseStringBody rest with
      | some (content, rest') => some (.str (String.mk content), rest')
      | none => none
    | '[' :: rest =>
      (match skipWs rest with
       | ']' :: rest' => some (.arr [], rest')
       | _ =>
         match parseElems fuel rest with
         | some (xs, rest') => some (.arr xs, rest')
         | none => none)
    | '{' :: rest =>
      (match skipWs rest with
       | '}' :: rest' => some (.obj [], rest')
       | _ =>
         match parseMembers fuel rest with
         | some (ms, rest') => some (.obj ms, rest')
         | none => none)
    | cs' =>
      match parseNumber cs' with
      | some (n, rest) => some (.num n, rest)
      | none => none

def parseElems : Nat → List Char → Option (List JValue × List Char)
  | 0, _ => none
  | fuel + 1, cs =>
    match parseVal fuel cs with
    | some (v, rest) =>
      (match skipWs rest with
       | ',' :: rest' =>
         (match parseElems fuel rest' with
          | some (vs, rest'') => some (v :: vs, rest'')
          | none => none)
       | ']' :: rest' => some ([v], rest')
       | _ => none)
    | none => none

def parseMembers : Nat → List Char → Option (List (String × JValue) × List Char)
  | 0, _ => none
  | fuel + 1, cs =>
    match skipWs cs with
    | '"' :: rest =>
      (match parseStringBody rest with
       | some (key, rest') =>
         (match skipWs rest' with
          | ':' :: rest'' =>
            (match parseVal fuel rest'' with
             | some (v, r3) =>
               (match skipWs r3 with
                | ',' :: r4 =>
                  (match parseMembers fuel r4 with
                   | some (ms, r5) => some ((String.mk key, v) :: ms, r5)
                   | none => none)
                | '}' :: r4 => some ([(String.mk key, v)], r4)
                | _ => none)
             | none => none)
          | _ => none)
       | none => none)
    | _ => none

end

/-- Model of JavaScript `JSON.parse`: `none` models a thrown `SyntaxError`. -/
def jsonParse (s : String) : Option JValue :=
  match parseVal (s.length + 1) s.data with
  | some (v, rest) => if skipWs rest = [] then some v else none
  | none => none

/-! ## JavaScript value helpers -/

/-- JavaScript truthiness of a JSON value. -/
def jsTruthy : JValue → Bool
  | .null => false
  | .bool b => b
  | .num n => n != 0
  | .nan => false
  | .str s => s != ""
  | .arr _ => true
  | .obj _ => true

/-- JavaScript `x || d` where `x` is an object-field value (possibly
`undefined`). -/
def jsOr (v : JSVal) (d : JValue) : JValue :=
  match v with
  | some x => if jsTruthy x then x else d
  | none => d

/-- Field lookup in a parsed JSON object; for duplicate keys the later
occurrence wins, as in `JSON.parse`. -/
def jlookup : List (String × JValue) → String → Option JValue
  | [], _ => none
  | (k', v) :: rest, k =>
    match jlookup rest k with
    | some w => some w
    | none => if k' = k then some v else none

/-- JavaScript property access `x.f` on a JSON value: throws a `TypeError`
(models as `Except.error`) when `x` is `null`; yields `undefined` for
non-object values. -/
def getF (v : JValue) (k : String) : Except Unit JSVal :=
  match v with
  | .null => .error ()
  | .obj fs => .ok (jlookup fs k)
  | _ => .ok none

mutual

/-- JavaScript `toString` of a JSON value (array elements join with commas,
`null` elements rendering as the empty string). -/
def jsToString : JValue → String
  | .null => "null"
  | .bool b => if b then "true" else "false"
  | .num n => toString n
  | .nan => "NaN"
  | .str s => s
  | .arr xs => jsToStringList xs
  | .obj _ => "[object Object]"

def jsToStringList : List JValue → String
  | [] => ""
  | [x] => jsArrElemString x
  | x :: y :: xs => jsArrElemString x ++ "," ++ jsToStringList (y :: xs)

def jsArrElemString : JValue → String
  | .null => ""
  | v => jsToString v

end

/-- JavaScript `String.prototype.trim`, modelled over ASCII whitespace. -/
def jsTrim (s : String) : String :=
  String.mk (((s.data.dropWhile isWsChar).reverse.dropWhile isWsChar).reverse)

/-- JavaScript `ToNumber` on strings, restricted to optionally-signed decimal
integer forms; fractional, exponent and hex forms are outside the model and
yield `nan`. -/
def strToNumber (s : String) : JValue :=
  let t := jsTrim s
  if t = "" then .num 0
  else
    match t.data with
    | '-' :: ds =>
      if !ds.isEmpty && ds.all Char.isDigit then .num (-(digitsToNat ds : Int)) else .nan
    | '+' :: ds =>
      if !ds.isEmpty && ds.all Char.isDigit then .num (digitsToNat ds) else .nan
    | ds =>
      if ds.all Char.isDigit then .num (digitsToNat ds) else .nan

/-- JavaScript `ToNumber` of a JSON value (arrays and objects coerce through
their string form). -/
def toNumber : JValue → JValue
  | .num n => .num n
  | .nan => .nan
  | .null => .num 0
  | .bool b => .num (if b then 1 else 0)
  | .str s => strToNumber s
  | .arr xs => strToNumber (jsToString (.arr xs))
  | .obj fs => strToNumber (jsToString (.obj fs))

/-- `Math.max(a, v)` with `a` an integer constant. -/
def mathMax2 (a : Int) (v : JValue) : JValue :=
  match toNumber v with
  | .num n => .num (max a n)
  | _ => .nan

/-- `Math.min(a, v)` with `a` an integer constant. -/
def mathMin2 (a : Int) (v : JValue) : JValue :=
  match toNumber v with
  | .num n => .num (min a n)
  | _ => .nan

/-- JavaScript `s || d` on strings (empty string is falsy). -/
def strOrS (s d : String) : String := if s = "" then d else s

/-- JavaScript `x || d` where `x : string | undefined`. -/
def strOr (v : Option String) (d : String) : String :=
  match v with
  | some s => strOrS s d
  | none => d

/-- JavaScript `x?.toString()` on an object-field value (`null` and `undefined`
yield `undefined`). -/
def jsOptToString (v : JSVal) : Option String :=
  match v with
  | some .null => none
  | some u => some (jsToString u)
  | none => none

/-! ## Models of the regular expressions used by the normalizers -/

/-- Split the input at the first occurrence of a fence terminator (three
backticks): `(text before, text after)`. -/
def findClose : List Char → Option (List Char × List Char)
  | '`' :: '`' :: '`' :: rest => some ([], rest)
  | c :: cs =>
    match findClose cs with
    | some (pre, post) => some (c :: pre, post)
    | none => none
  | [] => none

/-- Try to match groqService's fence regex starting exactly at the head of the
input, returning the capture group.  The regex requires the literal tag
characters after the backticks, with the final tag letter optional; greedy
whitespace follows, then a lazy capture up to the next fence terminator. -/
def fenceAt : List Char → Option (List Char)
  | '`' :: '`' :: '`' :: 'j' :: 's' :: 'o' :: rest =>
    let rest1 := match rest with
      | 'n' :: r => r
      | r => r
    let rest2 := rest1.dropWhile isWsChar
    match findClose rest2 with
    | some (cap, _) => some cap
    | none => none
  | _ => none

/-- Leftmost match of groqService's fence regex over the whole input. -/
def fenceScan : List Char → Option (List Char)
  | [] => none
  | c :: cs =>
    match fenceAt (c :: cs) with
    | some cap => some cap
    | none => fenceScan cs

/-- The piece of `cs` up to and including the last occurrence of `t`
(meaningful only when `t` occurs in `cs`). -/
def takeUpToLast (t : Char) (cs : List Char) : List Char :=
  (cs.reverse.dropWhile (fun c => c != t)).reverse

/-- Leftmost match of groqService's bracket regex (an alternation trying the
square-bracket branch first at each position, each branch greedy to the last
closing bracket). -/
def bracketScan : List Char → Option (List Char)
  | [] => none
  | c :: cs =>
    if c = '[' && cs.contains ']' then some ('[' :: takeUpToLast ']' cs)
    else if c = '{' && cs.contains '}' then some ('{' :: takeUpToLast '}' cs)
    else bracketScan cs

/-- Leftmost greedy match of an array span (first opening square bracket that
has a closing one after it, out to the last closing one). -/
def arrSpanScan : List Char → Option (List Char)
  | [] => none
  | c :: cs =>
    if c = '[' && cs.contains ']' then some ('[' :: takeUpToLast ']' cs)
    else arrSpanScan cs

/-- Leftmost greedy match of an object span. -/
def objSpanScan : List Char → Option (List Char)
  | [] => none
  | c :: cs =>
    if c = '{' && cs.contains '}' then some ('{' :: takeUpToLast '}' cs)
    else objSpanScan cs

/-- geminiService's global fence-stripping replace: each occurrence of a
tagged fence opener (with optional trailing newline) or of a bare fence is
removed, longest alternative first. -/
def geminiStrip : List Char → List Char
  | '`' :: '`' :: '`' :: 'j' :: 's' :: 'o' :: 'n' :: '\n' :: rest => geminiStrip rest
  | '`' :: '`' :: '`' :: 'j' :: 's' :: 'o' :: 'n' :: rest => geminiStrip rest
  | '`' :: '`' :: '`' :: rest => geminiStrip rest
  | c :: cs => c :: geminiStrip cs
  | [] => []

/-- geminiService's html fence-stripping replace used on generated chapter
content: removes each tagged or bare fence occurrence. -/
def htmlStrip : List Char → List Char
  | '`' :: '`' :: '`' :: 'h' :: 't' :: 'm' :: 'l' :: rest => htmlStrip rest
  | '`' :: '`' :: '`' :: rest => htmlStrip rest
  | c :: cs => c :: htmlStrip cs
  | [] => []

/-! ## The two normalizers and the fallback extractor -/

namespace Groq

/-- groqService's `parseJSON`: direct parse; else, when the fence regex
matches, parse the trimmed capture (signalling `null` on failure without any
further attempt); else parse the bracket-regex match; else `null`. -/
def parseJSON (text : String) : Option JValue :=
  match jsonParse text with
  | some v => some v
  | none =>
    match fenceScan text.data with
    | some inner => jsonParse (jsTrim (String.mk inner))
    | none =>
      match bracketScan text.data with
      | some span => jsonParse (String.mk span)
      | none => none

end Groq

namespace Gemini

/-- geminiService's `parseJSON`: empty or missing text yields `[]`; else direct
parse; else parse after stripping fences and trimming; else `[]` (the
unparseable signal coincides with an empty array). -/
def parseJSON (text : Option String) : JValue :=
  match text with
  | none => .arr []
  | some t =>
    if t = "" then .arr []
    else
      match jsonParse t with
      | some v => v
      | none =>
        match jsonParse (jsTrim (String.mk (geminiStrip t.data))) with
        | some v => v
        | none => .arr []

end Gemini

namespace FallbackSvc

/-- fallbackService's `extractJSON`: match an array span anywhere in the text,
else an object span, and parse it; any failure yields `null`. -/
def extractJSON (text : String) : Option JValue :=
  match (match arrSpanScan text.data with
         | some m => some m
         | none => objSpanScan text.data) with
  | some m => jsonParse (String.mk m)
  | none => none

end FallbackSvc

/-! ## Data model -/

/-- The `Book` records built by the provider services (types.ts `Book`,
restricted to the fields these services write; `fileUrl` is only ever set to
`undefined` and is omitted). -/
structure Book where
  id : String
  title : JSVal
  author : JSVal
  coverColor : JSVal
  isbn : JSVal
  description : JSVal
  isLocal : Bool
  publishedYear : JSVal
  categories : JSVal
  matchReason : JSVal
  source : JSVal

/-- types.ts `Review` as built by the provider services. -/
structure Review where
  id : String
  reviewerName : JSVal
  rating : JSVal
  text : JSVal
  date : JSVal
  avatarColor : JSVal

/-- Result shape of `consultConcierge`. -/
structure ConciergeResult where
  reply : JValue
  suggestions : List Book

/-- types.ts `UserPreferences`. -/
structure UserPreferences where
  name : Option String
  genres : List String
  readingGoal : String
  onboardingComplete : Bool
  joinDate : Nat

/-- A chat-history turn (`{role: "user" | "model", text}`); used only in
prompt construction, which is not modelled. -/
structure ChatTurn where
  role : String
  text : String

/-- Presence of each credential read from the environment:
`VITE_GROQ_API_KEY` (groqService and the selector), `VITE_GEMINI_API_KEY`
(the selector), `process.env.API_KEY` (geminiService), `VITE_HF_TOKEN`
(fallbackService). -/
structure Env where
  groqKey : Bool
  geminiSelectKey : Bool
  geminiApiKey : Bool
  hfKey : Bool

/-- Outcome of an HTTP request, abstracting the transport: `throws` covers
network failure, a non-success status, and an unreadable body; `ok` carries
the extracted optional content field. -/
inductive FetchOutcome where
  | throws
  | ok (content : Option String)

/-- Oracle world: credentials plus the outcome each modelled endpoint would
produce for a request, and the current `Date.now()` value. -/
structure World where
  env : Env
  now : Nat
  groqNet : FetchOutcome
  geminiNet : FetchOutcome
  hfNet : FetchOutcome

/-- Build a world from its components. -/
def mkWorld (gk gsk gak hk : Bool) (now : Nat) (gn gemn hn : FetchOutcome) : World :=
  ⟨⟨gk, gsk, gak, hk⟩, now, gn, gemn, hn⟩

/-- JavaScript `try { body } catch { return handler }` for an async function
whose `try` block always returns: the result always resolves. -/
def tryOr {α : Type} (body : Except Unit α) (handler : α) : Except Unit α :=
  match body with
  | .ok v => .ok v
  | .error _ => .ok handler

/-- Monadic indexed map, modelling `Array.prototype.map` with an index where
the callback may throw. -/
def mapIdxM {α : Type} (f : Nat → JValue → Except Unit α) :
    Nat → List JValue → Except Unit (List α)
  | _, [] => .ok []
  | i, x :: xs => do
    let y ← f i x
    let ys ← mapIdxM f (i + 1) xs
    .ok (y :: ys)

/-- groqService's `callGroq`: fails fast without a credential; otherwise the
oracle decides; on HTTP success the content field defaults to the empty
string (`data.choices[0]?.message?.content || ""`). -/
def callGroq (w : World) : Except Unit String :=
  if !w.env.groqKey then .error ()
  else
    match w.groqNet with
    | .throws => .error ()
    | .ok c => .ok (c.getD "")

/-- geminiService's `ai.models.generateContent`: the oracle decides; on
success the `response.text` field may be `undefined`. -/
def callGemini (w : World) : Except Unit (Option String) :=
  match w.geminiNet with
  | .throws => .error ()
  | .ok c => .ok c

/-- fallbackService's `callLLM`: fails fast without the Hugging Face token;
otherwise the oracle decides (`result[0]?.generated_text || ""`). -/
def callLLM (w : World) : Except Unit String :=
  if !w.env.hfKey then .error ()
  else
    match w.hfNet with
    | .throws => .error ()
    | .ok c => .ok (c.getD "")

/-- Object-spread field extraction `{...b}`: spreading a non-object
contributes no named fields and never throws. -/
def spreadGet (b : JValue) (k : String) : JSVal :=
  match b with
  | .obj fs => jlookup fs k
  | _ => none

/-- Pure indexed map, modelling `Array.prototype.map` with an index. -/
def mapIdxP {α β : Type} (f : Nat → α → β) : Nat → List α → List β
  | _, [] => []
  | i, x :: xs => f i x :: mapIdxP f (i + 1) xs

/-! ## fallbackService (the Static Fallback Provider) -/

namespace FallbackSvc

/-- The item mapping inside fallbackService's `searchBooks`
(`{...b, id, categories: b.categories || ["General"], isLocal: false}`);
evaluating `b.categories` throws on a `null` item. -/
def searchItem (w : World) (i : Nat) (b : JValue) : Except Unit Book := do
  let cats ← getF b "categories"
  .ok { id := "fallback-" ++ toString w.now ++ "-" ++ toString i
        title := spreadGet b "title"
        author := spreadGet b "author"
        coverColor := spreadGet b "coverColor"
        isbn := spreadGet b "isbn"
        description := spreadGet b "description"
        isLocal := false
        publishedYear := spreadGet b "publishedYear"
        categories := some (jsOr cats (.arr [.str "General"]))
        matchReason := spreadGet b "matchReason"
        source := spreadGet b "source" }

/-- The hardcoded offline search result. -/
def offlineSearchBooks : List Book :=
  [{ id := "offline-1"
     title := some (.str "The Offline Library")
     author := some (.str "System Backup")
     coverColor := some (.str "#e2e8f0")
     isbn := some (.str "9780141439518")
     description := some (.str "We could not reach our AI services, but here is a classic placeholder.")
     isLocal := false
     publishedYear := some (.str "2024")
     categories := some (.arr [.str "System"])
     matchReason := none
     source := none }]

/-- fallbackService's `searchBooks`: attempt the Hugging Face call and parse a
book array out of the reply; on any failure return the hardcoded offline
list. -/
def searchBooks (w : World) (query : String) : List Book :=
  match (do
    let text ← callLLM w
    match extractJSON text with
    | some (.arr xs) => mapIdxM (searchItem w) 0 xs
    | _ => .error () : Except Unit (List Book)) with
  | .ok books => books
  | .error _ => offlineSearchBooks

/-- The item mapping inside fallbackService's `consultConcierge`
(`{...s, id, coverColor, isLocal: false, categories: []}`); it performs no
throwing property access. -/
def conciergeItem (i : Nat) (s : JValue) : Book :=
  { id := "fb-con-" ++ toString i
    title := spreadGet s "title"
    author := spreadGet s "author"
    coverColor := some (.str "#cbd5e1")
    isbn := spreadGet s "isbn"
    description := spreadGet s "description"
    isLocal := false
    publishedYear := spreadGet s "publishedYear"
    categories := some (.arr [])
    matchReason := spreadGet s "matchReason"
    source := spreadGet s "source" }

/-- fallbackService's `consultConcierge`. -/
def consultConcierge (w : World) (userMessage : String) (history : List ChatTurn) :
    ConciergeResult :=
  match (do
    let text ← callLLM w
    match extractJSON text with
    | some j =>
      if jsTruthy j then do
        let r ← getF j "reply"
        match r with
        | some rv =>
          if jsTruthy rv then do
            let s ← getF j "suggestions"
            let suggestions : List Book :=
              match s with
              | some (.arr xs) => mapIdxP conciergeItem 0 xs
              | _ => []
            .ok { reply := rv, suggestions := suggestions }
          else .ok { reply := .str text, suggestions := ([] : List Book) }
        | none => .ok { reply := .str text, suggestions := ([] : List Book) }
      else .ok { reply := .str text, suggestions := ([] : List Book) }
    | none => .ok { reply := .str text, suggestions := ([] : List Book) }
    : Except Unit ConciergeResult) with
  | .ok r => r
  | .error _ =>
    { reply := .str "I\x27m having trouble connecting to the cloud, but I\x27m here listening."
      suggestions := [] }

/-- The hardcoded onboarding recommendation list. -/
def offlineOnboardingBooks : List Book :=
  [{ id := "off-1", title := some (.str "The Great Gatsby")
     author := some (.str "F. Scott Fitzgerald")
     coverColor := some (.str "#fef3c7"), isbn := some (.str "9780743273565")
     description := some (.str "A classic of the Jazz Age.")
     isLocal := false, publishedYear := some (.str "1925")
     categories := some (.arr [.str "Classic"])
     matchReason := some (.str "Timeless classic"), source := none },
   { id := "off-2", title := some (.str "1984")
     author := some (.str "George Orwell")
     coverColor := some (.str "#f3f4f6"), isbn := some (.str "9780451524935")
     description := some (.str "Dystopian social science fiction.")
     isLocal := false, publishedYear := some (.str "1949")
     categories := some (.arr [.str "Sci-Fi"])
     matchReason := some (.str "Essential reading"), source := none },
   { id := "off-3", title := some (.str "Dune")
     author := some (.str "Frank Herbert")
     coverColor := some (.str "#fed7aa"), isbn := some (.str "9780441013593")
     description := some (.str "Epic science fiction.")
     isLocal := false, publishedYear := some (.str "1965")
     categories := some (.arr [.str "Sci-Fi"])
     matchReason := some (.str "Masterpiece"), source := none },
   { id := "off-4", title := some (.str "Sapiens")
     author := some (.str "Yuval Noah Harari")
     coverColor := some (.str "#e0f2fe"), isbn := some (.str "9780062316097")
     description := some (.str "A brief history of humankind.")
     isLocal := false, publishedYear := some (.str "2011")
     categories := some (.arr [.str "History"])
     matchReason := some (.str "Thought provoking"), source := none }]

/-- fallbackService's `getOnboardingRecommendations`: unconditionally the
hardcoded offline set, ignoring the preferences. -/
def getOnboardingRecommendations (prefs : UserPreferences) : List Book :=
  offlineOnboardingBooks

/-- The hardcoded offline reviews. -/
def offlineReviews : List Review :=
  [{ id := "rev-1", reviewerName := some (.str "Offline Reader")
     rating := some (.num 5), text := some (.str "This book is a masterpiece!")
     date := some (.str "Today"), avatarColor := some (.str "#3b82f6") },
   { id := "rev-2", reviewerName := some (.str "Bookworm")
     rating := some (.num 4), text := some (.str "Really enjoyed the plot twists.")
     date := some (.str "Yesterday"), avatarColor := some (.str "#ef4444") }]

/-- fallbackService's `generateReviews`: unconditionally the hardcoded
offline reviews. -/
def generateReviews (title author : String) : List Review :=
  offlineReviews

/-- fallbackService's `chatAboutBook`. -/
def chatAboutBook (w : World) (bookTitle userMessage : String) (history : List ChatTurn) :
    String :=
  match callLLM w with
  | .ok t => t
  | .error _ => "I can\x27t analyze this book right now due to connection issues."

/-- fallbackService's `translateText`: note it takes no target language — it
always asks for a translation to English. -/
def translateText (w : World) (text : String) : String :=
  match callLLM w with
  | .ok t => t
  | .error _ => "Translation service unavailable."

/-- fallbackService's `explainContext`. -/
def explainContext (w : World) (text bookTitle : String) : String :=
  match callLLM w with
  | .ok t => t
  | .error _ => "Context service unavailable."

/-- fallbackService's `generateBookContent`. -/
def generateBookContent (w : World) (title author : String) (chapter : Nat) : String :=
  match callLLM w with
  | .ok t => strOrS t "<p>Content generation failed.</p>"
  | .error _ =>
    "\n            <h3>Chapter " ++ toString chapter ++
    "</h3>\n            <p>We are currently unable to generate the full text for <strong>" ++
    title ++
    "</strong> due to high demand on our AI services.</p>\n            <p>Please try again later or upload a local PDF copy of this book to continue reading.</p>\n        "

/-- fallbackService's `getBookSummary`. -/
def getBookSummary (w : World) (title : String) : String :=
  match callLLM w with
  | .ok t => t
  | .error _ => "Summary unavailable offline."

/-- fallbackService's `getBookRecap`. -/
def getBookRecap (w : World) (title : String) : String :=
  match callLLM w with
  | .ok t => t
  | .error _ => "Recap unavailable offline."

end FallbackSvc

/-! ## groqService -/

namespace Groq

/-- The item mapping inside groqService's `searchBooks`; each property access
throws on a `null` item. -/
def searchItem (w : World) (i : Nat) (item : JValue) : Except Unit Book := do
  let t ← getF item "title"
  let a ← getF item "author"
  let c ← getF item "coverColor"
  let isb ← getF item "isbn"
  let d ← getF item "description"
  let py ← getF item "publishedYear"
  let cats ← getF item "categories"
  .ok { id := "groq-search-" ++ toString w.now ++ "-" ++ toString i
        title := some (jsOr t (.str "Unknown"))
        author := some (jsOr a (.str "Unknown"))
        coverColor := some (jsOr c (.str "#e2e8f0"))
        isbn := isb
        description := some (jsOr d (.str "A great book."))
        isLocal := false
        publishedYear := some (.str (strOr (jsOptToString py) "Unknown"))
        categories := some (jsOr cats (.arr []))
        matchReason := none
        source := some (.str "groq") }

/-- groqService's `searchBooks`. -/
def searchBooks (w : World) (query : String) : Except Unit (List Book) :=
  if !w.env.groqKey then .ok (FallbackSvc.searchBooks w query)
  else
    tryOr (do
      let response ← callGroq w
      match parseJSON response with
      | some (.arr xs) => mapIdxM (searchItem w) 0 xs
      | _ => .ok (FallbackSvc.searchBooks w query))
      (FallbackSvc.searchBooks w query)

/-- The suggestion mapping inside groqService's `consultConcierge`. -/
def conciergeItem (w : World) (i : Nat) (item : JValue) : Except Unit Book := do
  let t ← getF item "title"
  let a ← getF item "author"
  let c ← getF item "coverColor"
  let isb ← getF item "isbn"
  let d ← getF item "description"
  let py ← getF item "publishedYear"
  let cats ← getF item "categories"
  let mr ← getF item "matchReason"
  .ok { id := "groq-concierge-" ++ toString w.now ++ "-" ++ toString i
        title := t
        author := a
        coverColor := some (jsOr c (.str "#cbd5e1"))
        isbn := isb
        description := d
        isLocal := false
        publishedYear := (jsOptToString py).map JValue.str
        categories := some (jsOr cats (.arr []))
        matchReason := mr
        source := some (.str "groq") }

/-- groqService's `consultConcierge`: a reply that fails to parse is returned
verbatim with no suggestions; mapping over a non-array `suggestions` value
throws and falls back. -/
def consultConcierge (w : World) (userMessage : String) (history : List ChatTurn) :
    Except Unit ConciergeResult :=
  if !w.env.groqKey then .ok (FallbackSvc.consultConcierge w userMessage history)
  else
    tryOr (do
      let response ← callGroq w
      match parseJSON response with
      | none => .ok { reply := .str response, suggestions := ([] : List Book) }
      | some d =>
        if jsTruthy d then do
          let sv ← getF d "suggestions"
          match jsOr sv (.arr []) with
          | .arr xs => do
            let suggestions ← mapIdxM (conciergeItem w) 0 xs
            let r ← getF d "reply"
            .ok { reply := jsOr r (.str "I\x27m thinking about that...")
                  suggestions := suggestions }
          | _ => .error ()
        else .ok { reply := .str response, suggestions := ([] : List Book) })
      (FallbackSvc.consultConcierge w userMessage history)

/-- The item mapping inside groqService's `getOnboardingRecommendations`. -/
def recItem (w : World) (i : Nat) (item : JValue) : Except Unit Book := do
  let t ← getF item "title"
  let a ← getF item "author"
  let c ← getF item "coverColor"
  let isb ← getF item "isbn"
  let d ← getF item "description"
  let py ← getF item "publishedYear"
  let cats ← getF item "categories"
  let mr ← getF item "matchReason"
  .ok { id := "groq-rec-" ++ toString w.now ++ "-" ++ toString i
        title := t
        author := a
        coverColor := some (jsOr c (.str "#e2e8f0"))
        isbn := isb
        description := d
        isLocal := false
        publishedYear := (jsOptToString py).map JValue.str
        categories := some (jsOr cats (.arr []))
        matchReason := mr
        source := some (.str "groq") }

/-- groqService's `getOnboardingRecommendations`. -/
def getOnboardingRecommendations (w : World) (prefs : UserPreferences) :
    Except Unit (List Book) :=
  if !w.env.groqKey then .ok (FallbackSvc.getOnboardingRecommendations prefs)
  else
    tryOr (do
      let response ← callGroq w
      match parseJSON response with
      | some (.arr xs) => mapIdxM (recItem w) 0 xs
      | _ => .ok (FallbackSvc.getOnboardingRecommendations prefs))
      (FallbackSvc.getOnboardingRecommendations prefs)

/-- The item mapping inside groqService's `generateReviews`; the rating is
clamped via `Math.min(5, Math.max(1, item.rating || 4))`. -/
def reviewItem (i : Nat) (item : JValue) : Except Unit Review := do
  let rn ← getF item "reviewerName"
  let r ← getF item "rating"
  let tx ← getF item "text"
  let dt ← getF item "date"
  let av ← getF item "avatarColor"
  .ok { id := "groq-review-" ++ toString i
        reviewerName := some (jsOr rn (.str "Reader"))
        rating := some (mathMin2 5 (mathMax2 1 (jsOr r (.num 4))))
        text := some (jsOr tx (.str "Great book!"))
        date := some (jsOr dt (.str "Recently"))
        avatarColor := some (jsOr av (.str "#3b82f6")) }

/-- groqService's `generateReviews`. -/
def generateReviews (w : World) (title author : String) : Except Unit (List Review) :=
  if !w.env.groqKey then .ok (FallbackSvc.generateReviews title author)
  else
    tryOr (do
      let response ← callGroq w
      match parseJSON response with
      | some (.arr xs) => mapIdxM reviewItem 0 xs
      | _ => .ok (FallbackSvc.generateReviews title author))
      (FallbackSvc.generateReviews title author)

/-- groqService's `chatAboutBook`. -/
def chatAboutBook (w : World) (bookTitle userMessage : String) (history : List ChatTurn) :
    Except Unit String :=
  if !w.env.groqKey then .ok (FallbackSvc.chatAboutBook w bookTitle userMessage history)
  else tryOr (callGroq w) (FallbackSvc.chatAboutBook w bookTitle userMessage history)

/-- groqService's `translateText`: on either fallback path it delegates to
`Fallback.translateText(text)`, dropping `targetLang`. -/
def translateText (w : World) (text targetLang : String) : Except Unit String :=
  if !w.env.groqKey then .ok (FallbackSvc.translateText w text)
  else tryOr (callGroq w) (FallbackSvc.translateText w text)

/-- groqService's `explainContext`. -/
def explainContext (w : World) (text bookTitle : String) : Except Unit String :=
  if !w.env.groqKey then .ok (FallbackSvc.explainContext w text bookTitle)
  else tryOr (callGroq w) (FallbackSvc.explainContext w text bookTitle)

/-- groqService's `generateBookContent`
(`return response || Fallback.generateBookContent(...)`). -/
def generateBookContent (w : World) (title author : String) (chapter : Nat) :
    Except Unit String :=
  if !w.env.groqKey then .ok (FallbackSvc.generateBookContent w title author chapter)
  else
    tryOr (do
      let response ← callGroq w
      .ok (strOrS response (FallbackSvc.generateBookContent w title author chapter)))
      (FallbackSvc.generateBookContent w title author chapter)

/-- groqService's `getBookSummary`. -/
def getBookSummary (w : World) (title : String) : Except Unit String :=
  if !w.env.groqKey then .ok (FallbackSvc.getBookSummary w title)
  else tryOr (callGroq w) (FallbackSvc.getBookSummary w title)

/-- groqService's `getBookRecap`. -/
def getBookRecap (w : World) (title : String) : Except Unit String :=
  if !w.env.groqKey then .ok (FallbackSvc.getBookRecap w title)
  else tryOr (callGroq w) (FallbackSvc.getBookRecap w title)

end Groq

/-! ## geminiService -/

namespace Gemini

/-- The item mapping inside geminiService's `searchBooks` (no defaults for
title, author, description; `publishedYear` copied raw). -/
def searchItem (w : World) (i : Nat) (item : JValue) : Except Unit Book := do
  let t ← getF item "title"
  let a ← getF item "author"
  let c ← getF item "coverColor"
  let isb ← getF item "isbn"
  let d ← getF item "description"
  let py ← getF item "publishedYear"
  let cats ← getF item "categories"
  .ok { id := "gemini-search-" ++ toString w.now ++ "-" ++ toString i
        title := t
        author := a
        coverColor := some (jsOr c (.str "#E2E8F0"))
        isbn := isb
        description := d
        isLocal := false
        publishedYear := py
        categories := some (jsOr cats (.arr []))
        matchReason := none
        source := none }

/-- geminiService's `searchBooks`: `parseJSON` yields `[]` on unparseable
text, so mapping produces an empty result; only a non-array parse (for which
`.map` throws) reaches the fallback. -/
def searchBooks (w : World) (query : String) : Except Unit (List Book) :=
  if !w.env.geminiApiKey then .ok (FallbackSvc.searchBooks w query)
  else
    tryOr (do
      let text ← callGemini w
      match parseJSON text with
      | .arr xs => mapIdxM (searchItem w) 0 xs
      | _ => .error ())
      (FallbackSvc.searchBooks w query)

/-- The suggestion mapping inside geminiService's `consultConcierge`. -/
def conciergeItem (w : World) (i : Nat) (item : JValue) : Except Unit Book := do
  let t ← getF item "title"
  let a ← getF item "author"
  let c ← getF item "coverColor"
  let isb ← getF item "isbn"
  let d ← getF item "description"
  let py ← getF item "publishedYear"
  let cats ← getF item "categories"
  let mr ← getF item "matchReason"
  .ok { id := "concierge-" ++ toString w.now ++ "-" ++ toString i
        title := t
        author := a
        coverColor := some (jsOr c (.str "#E2E8F0"))
        isbn := isb
        description := d
        isLocal := false
        publishedYear := py
        categories := some (jsOr cats (.arr []))
        matchReason := mr
        source := none }

/-- geminiService's `consultConcierge`. -/
def consultConcierge (w : World) (userMessage : String) (history : List ChatTurn) :
    Except Unit ConciergeResult :=
  if !w.env.geminiApiKey then .ok (FallbackSvc.consultConcierge w userMessage history)
  else
    tryOr (do
      let text ← callGemini w
      let data := parseJSON text
      let sv ← getF data "suggestions"
      match jsOr sv (.arr []) with
      | .arr xs => do
        let suggestions ← mapIdxM (conciergeItem w) 0 xs
        let r ← getF data "reply"
        .ok { reply := jsOr r (.str "I\x27m pondering that thought...")
              suggestions := suggestions }
      | _ => .error ())
      (FallbackSvc.consultConcierge w userMessage history)

/-- The item mapping inside geminiService's `getOnboardingRecommendations`. -/
def recItem (w : World) (i : Nat) (item : JValue) : Except Unit Book := do
  let t ← getF item "title"
  let a ← getF item "author"
  let c ← getF item "coverColor"
  let isb ← getF item "isbn"
  let d ← getF item "description"
  let py ← getF item "publishedYear"
  let cats ← getF item "categories"
  let mr ← getF item "matchReason"
  .ok { id := "gemini-onboarding-" ++ toString w.now ++ "-" ++ toString i
        title := t
        author := a
        coverColor := some (jsOr c (.str "#E2E8F0"))
        isbn := isb
        description := d
        isLocal := false
        publishedYear := py
        categories := some (jsOr cats (.arr []))
        matchReason := mr
        source := none }

/-- geminiService's `getOnboardingRecommendations`. -/
def getOnboardingRecommendations (w : World) (prefs : UserPreferences) :
    Except Unit (List Book) :=
  if !w.env.geminiApiKey then .ok (FallbackSvc.getOnboardingRecommendations prefs)
  else
    tryOr (do
      let text ← callGemini w
      match parseJSON text with
      | .arr xs => mapIdxM (recItem w) 0 xs
      | _ => .error ())
      (FallbackSvc.getOnboardingRecommendations prefs)

/-- The avatar palette in geminiService's `generateReviews`. -/
def reviewColors : List String :=
  ["#EF4444", "#F59E0B", "#10B981", "#3B82F6", "#8B5CF6", "#EC4899"]

/-- The item mapping inside geminiService's `generateReviews`: every field is
copied through unmodified (no defaulting, no rating clamp); only the avatar
color is assigned from the palette. -/
def reviewItem (i : Nat) (item : JValue) : Except Unit Review := do
  let rn ← getF item "reviewerName"
  let r ← getF item "rating"
  let tx ← getF item "text"
  let dt ← getF item "date"
  .ok { id := "review-" ++ toString i
        reviewerName := rn
        rating := r
        text := tx
        date := dt
        avatarColor := some (.str (reviewColors.getD (i % 6) "")) }

/-- geminiService's `generateReviews`. -/
def generateReviews (w : World) (title author : String) : Except Unit (List Review) :=
  if !w.env.geminiApiKey then .ok (FallbackSvc.generateReviews title author)
  else
    tryOr (do
      let text ← callGemini w
      match parseJSON text with
      | .arr xs => mapIdxM reviewItem 0 xs
      | _ => .error ())
      (FallbackSvc.generateReviews title author)

/-- geminiService's `chatAboutBook`. -/
def chatAboutBook (w : World) (bookTitle userMessage : String) (history : List ChatTurn) :
    Except Unit String :=
  if !w.env.geminiApiKey then .ok (FallbackSvc.chatAboutBook w bookTitle userMessage history)
  else
    tryOr (do
      let t ← callGemini w
      .ok (strOr t "I couldn\x27t generate a response."))
      (FallbackSvc.chatAboutBook w bookTitle userMessage history)

/-- geminiService's `translateText`: both fallback paths delegate to
`Fallback.translateText(text)`, dropping `targetLang`. -/
def translateText (w : World) (text targetLang : String) : Except Unit String :=
  if !w.env.geminiApiKey then .ok (FallbackSvc.translateText w text)
  else
    tryOr (do
      let t ← callGemini w
      .ok (strOr t "Translation failed."))
      (FallbackSvc.translateText w text)

/-- geminiService's `explainContext`. -/
def explainContext (w : World) (text bookTitle : String) : Except Unit String :=
  if !w.env.geminiApiKey then .ok (FallbackSvc.explainContext w text bookTitle)
  else
    tryOr (do
      let t ← callGemini w
      .ok (strOr t "Could not explain context."))
      (FallbackSvc.explainContext w text bookTitle)

/-- geminiService's `generateBookContent`: default the text, strip html
fences, trim. -/
def generateBookContent (w : World) (title author : String) (chapter : Nat) :
    Except Unit String :=
  if !w.env.geminiApiKey then .ok (FallbackSvc.generateBookContent w title author chapter)
  else
    tryOr (do
      let t ← callGemini w
      let text := strOr t "<p>Content unavailable.</p>"
      .ok (jsTrim (String.mk (htmlStrip text.data))))
      (FallbackSvc.generateBookContent w title author chapter)

/-- geminiService's `getBookSummary`. -/
def getBookSummary (w : World) (title : String) : Except Unit String :=
  if !w.env.geminiApiKey then .ok (FallbackSvc.getBookSummary w title)
  else
    tryOr (do
      let t ← callGemini w
      .ok (strOr t "Summary unavailable."))
      (FallbackSvc.getBookSummary w title)

/-- geminiService's `getBookRecap`. -/
def getBookRecap (w : World) (title : String) : Except Unit String :=
  if !w.env.geminiApiKey then .ok (FallbackSvc.getBookRecap w title)
  else
    tryOr (do
      let t ← callGemini w
      .ok (strOr t "Recap unavailable."))
      (FallbackSvc.getBookRecap w title)

end Gemini

/-! ## aiProviderService (the Provider Selector) -/

namespace AIProvider

/-- aiProviderService's `getProvider`: Groq credential first, then Gemini,
else the static fallback. -/
def getProvider (e : Env) : String :=
  if e.groqKey then "groq"
  else if e.geminiSelectKey then "gemini"
  else "fallback"

/-- aiProviderService's `getActiveProvider`. -/
def getActiveProvider (e : Env) : String := getProvider e

/-- aiProviderService's `isAIAvailable` (`provider !== "fallback"`). -/
def isAIAvailable (e : Env) : Bool := getProvider e != "fallback"

/-- The module-level binding `activeService.searchBooks`. -/
def searchBooks (w : World) (query : String) : Except Unit (List Book) :=
  if getProvider w.env = "groq" then Groq.searchBooks w query
  else if getProvider w.env = "gemini" then Gemini.searchBooks w query
  else .ok (FallbackSvc.searchBooks w query)

/-- The module-level binding `activeService.consultConcierge`. -/
def consultConcierge (w : World) (userMessage : String) (history : List ChatTurn) :
    Except Unit ConciergeResult :=
  if getProvider w.env = "groq" then Groq.consultConcierge w userMessage history
  else if getProvider w.env = "gemini" then Gemini.consultConcierge w userMessage history
  else .ok (FallbackSvc.consultConcierge w userMessage history)

/-- The module-level binding `activeService.getOnboardingRecommendations`. -/
def getOnboardingRecommendations (w : World) (prefs : UserPreferences) :
    Except Unit (List Book) :=
  if getProvider w.env = "groq" then Groq.getOnboardingRecommendations w prefs
  else if getProvider w.env = "gemini" then Gemini.getOnboardingRecommendations w prefs
  else .ok (FallbackSvc.getOnboardingRecommendations prefs)

/-- The module-level binding `activeService.generateReviews`. -/
def generateReviews (w : World) (title author : String) : Except Unit (List Review) :=
  if getProvider w.env = "groq" then Groq.generateReviews w title author
  else if getProvider w.env = "gemini" then Gemini.generateReviews w title author
  else .ok (FallbackSvc.generateReviews title author)

/-- The module-level binding `activeService.chatAboutBook`. -/
def chatAboutBook (w : World) (bookTitle userMessage : String) (history : List ChatTurn) :
    Except Unit String :=
  if getProvider w.env = "groq" then Groq.chatAboutBook w bookTitle userMessage history
  else if getProvider w.env = "gemini" then Gemini.chatAboutBook w bookTitle userMessage history
  else .ok (FallbackSvc.chatAboutBook w bookTitle userMessage history)

/-- The module-level binding `activeService.translateText`. -/
def translateText (w : World) (text targetLang : String) : Except Unit String :=
  if getProvider w.env = "groq" then Groq.translateText w text targetLang
  else if getProvider w.env = "gemini" then Gemini.translateText w text targetLang
  else .ok (FallbackSvc.translateText w text)

/-- The module-level binding `activeService.explainContext`. -/
def explainContext (w : World) (text bookTitle : String) : Except Unit String :=
  if getProvider w.env = "groq" then Groq.explainContext w text bookTitle
  else if getProvider w.env = "gemini" then Gemini.explainContext w text bookTitle
  else .ok (FallbackSvc.explainContext w text bookTitle)

/-- The module-level binding `activeService.generateBookContent`. -/
def generateBookContent (w : World) (title author : String) (chapter : Nat) :
    Except Unit String :=
  if getProvider w.env = "groq" then Groq.generateBookContent w title author chapter
  else if getProvider w.env = "gemini" then Gemini.generateBookContent w title author chapter
  else .ok (FallbackSvc.generateBookContent w title author chapter)

/-- The module-level binding `activeService.getBookSummary`. -/
def getBookSummary (w : World) (title : String) : Except Unit String :=
  if getProvider w.env = "groq" then Groq.getBookSummary w title
  else if getProvider w.env = "gemini" then Gemini.getBookSummary w title
  else .ok (FallbackSvc.getBookSummary w title)

/-- The module-level binding `activeService.getBookRecap`. -/
def getBookRecap (w : World) (title : String) : Except Unit String :=
  if getProvider w.env = "groq" then Groq.getBookRecap w title
  else if getProvider w.env = "gemini" then Gemini.getBookRecap w title
  else .ok (FallbackSvc.getBookRecap w title)

end AIProvider

/-! ## Helper lemmas -/

/-- A modelled promise resolves: the call returns an `ok` value. -/
def resolves {α : Type} (x : Except Unit α) : Prop := ∃ v, x = .ok v

lemma resolves_ok {α : Type} (v : α) : resolves (Except.ok v : Except Unit α) := ⟨v, rfl⟩

lemma resolves_tryOr {α : Type} (b : Except Unit α) (h : α) : resolves (tryOr b h) := by
  cases b with
  | ok v => exact ⟨v, rfl⟩
  | error e => exact ⟨h, rfl⟩

lemma resolves_ite {c : Prop} [Decidable c] {α : Type} {x y : Except Unit α}
    (hx : resolves x) (hy : resolves y) : resolves (if c then x else y) := by
  by_cases h : c
  · simpa [h] using hx
  · simpa [h] using hy

lemma groq_searchBooks_resolves (w : World) (q : String) :
    resolves (Groq.searchBooks w q) := by
  unfold Groq.searchBooks
  exact resolves_ite (resolves_ok _) (resolves_tryOr _ _)

lemma groq_consultConcierge_resolves (w : World) (m : String) (h : List ChatTurn) :
    resolves (Groq.consultConcierge w m h) := by
  unfold Groq.consultConcierge
  exact resolves_ite (resolves_ok _) (resolves_tryOr _ _)

lemma groq_getOnboardingRecommendations_resolves (w : World) (p : UserPreferences) :
    resolves (Groq.getOnboardingRecommendations w p) := by
  unfold Groq.getOnboardingRecommendations
  exact resolves_ite (resolves_ok _) (resolves_tryOr _ _)

lemma groq_generateReviews_resolves (w : World) (t a : String) :
    resolves (Groq.generateReviews w t a) := by
  unfold Groq.generateReviews
  exact resolves_ite (resolves_ok _) (resolves_tryOr _ _)

lemma groq_chatAboutBook_resolves (w : World) (t m : String) (h : List ChatTurn) :
    resolves (Groq.chatAboutBook w t m h) := by
  unfold Groq.chatAboutBook
  exact resolves_ite (resolves_ok _) (resolves_tryOr _ _)

lemma groq_translateText_resolves (w : World) (t l : String) :
    resolves (Groq.translateText w t l) := by
  unfold Groq.translateText
  exact resolves_ite (resolves_ok _) (resolves_tryOr _ _)

lemma groq_explainContext_resolves (w : World) (t b : String) :
    resolves (Groq.explainContext w t b) := by
  unfold Groq.explainContext
  exact resolves_ite (resolves_ok _) (resolves_tryOr _ _)

lemma groq_generateBookContent_resolves (w : World) (t a : String) (c : Nat) :
    resolves (Groq.generateBookContent w t a c) := by
  unfold Groq.generateBookContent
  exact resolves_ite (resolves_ok _) (resolves_tryOr _ _)

lemma groq_getBookSummary_resolves (w : World) (t : String) :
    resolves (Groq.getBookSummary w t) := by
  unfold Groq.getBookSummary
  exact resolves_ite (resolves_ok _) (resolves_tryOr _ _)

lemma groq_getBookRecap_resolves (w : World) (t : String) :
    resolves (Groq.getBookRecap w t) := by
  unfold Groq.getBookRecap
  exact resolves_ite (resolves_ok _) (resolves_tryOr _ _)

lemma gemini_searchBooks_resolves (w : World) (q : String) :
    resolves (Gemini.searchBooks w q) := by
  unfold Gemini.searchBooks
  exact resolves_ite (resolves_ok _) (resolves_tryOr _ _)

lemma gemini_consultConcierge_resolves (w : World) (m : String) (h : List ChatTurn) :
    resolves (Gemini.consultConcierge w m h) := by
  unfold Gemini.consultConcierge
  exact resolves_ite (resolves_ok _) (resolves_tryOr _ _)

lemma gemini_getOnboardingRecommendations_resolves (w : World) (p : UserPreferences) :
    resolves (Gemini.getOnboardingRecommendations w p) := by
  unfold Gemini.getOnboardingRecommendations
  exact resolves_ite (resolves_ok _) (resolves_tryOr _ _)

lemma gemini_generateReviews_resolves (w : World) (t a : String) :
    resolves (Gemini.generateReviews w t a) := by
  unfold Gemini.generateReviews
  exact resolves_ite (resolves_ok _) (resolves_tryOr _ _)

lemma gemini_chatAboutBook_resolves (w : World) (t m : String) (h : List ChatTurn) :
    resolves (Gemini.chatAboutBook w t m h) := by
  unfold Gemini.chatAboutBook
  exact resolves_ite (resolves_ok _) (resolves_tryOr _ _)

lemma gemini_translateText_resolves (w : World) (t l : String) :
    resolves (Gemini.translateText w t l) := by
  unfold Gemini.translateText
  exact resolves_ite (resolves_ok _) (resolves_tryOr _ _)

lemma gemini_explainContext_resolves (w : World) (t b : String) :
    resolves (Gemini.explainContext w t b) := by
  unfold Gemini.explainContext
  exact resolves_ite (resolves_ok _) (resolves_tryOr _ _)

lemma gemini_generateBookContent_resolves (w : World) (t a : String) (c : Nat) :
    resolves (Gemini.generateBookContent w t a c) := by
  unfold Gemini.generateBookContent
  exact resolves_ite (resolves_ok _) (resolves_tryOr _ _)

lemma gemini_getBookSummary_resolves (w : World) (t : String) :
    resolves (Gemini.getBookSummary w t) := by
  unfold Gemini.getBookSummary
  exact resolves_ite (resolves_ok _) (resolves_tryOr _ _)

lemma gemini_getBookRecap_resolves (w : World) (t : String) :
    resolves (Gemini.getBookRecap w t) := by
  unfold Gemini.getBookRecap
  exact resolves_ite (resolves_ok _) (resolves_tryOr _ _)

lemma active_searchBooks_resolves (w : World) (q : String) :
    resolves (AIProvider.searchBooks w q) := by
  unfold AIProvider.searchBooks
  exact resolves_ite (groq_searchBooks_resolves w q)
    (resolves_ite (gemini_searchBooks_resolves w q) (resolves_ok _))

lemma active_consultConcierge_resolves (w : World) (m : String) (h : List ChatTurn) :
    resolves (AIProvider.consultConcierge w m h) := by
  unfold AIProvider.consultConcierge
  exact resolves_ite (groq_consultConcierge_resolves w m h)
    (resolves_ite (gemini_consultConcierge_resolves w m h) (resolves_ok _))

lemma active_getOnboardingRecommendations_resolves (w : World) (p : UserPreferences) :
    resolves (AIProvider.getOnboardingRecommendations w p) := by
  unfold AIProvider.getOnboardingRecommendations
  exact resolves_ite (groq_getOnboardingRecommendations_resolves w p)
    (resolves_ite (gemini_getOnboardingRecommendations_resolves w p) (resolves_ok _))

lemma active_generateReviews_resolves (w : World) (t a : String) :
    resolves (AIProvider.generateReviews w t a) := by
  unfold AIProvider.generateReviews
  exact resolves_ite (groq_generateReviews_resolves w t a)
    (resolves_ite (gemini_generateReviews_resolves w t a) (resolves_ok _))

lemma active_chatAboutBook_resolves (w : World) (t m : String) (h : List ChatTurn) :
    resolves (AIProvider.chatAboutBook w t m h) := by
  unfold AIProvider.chatAboutBook
  exact resolves_ite (groq_chatAboutBook_resolves w t m h)
    (resolves_ite (gemini_chatAboutBook_resolves w t m h) (resolves_ok _))

lemma active_translateText_resolves (w : World) (t l : String) :
    resolves (AIProvider.translateText w t l) := by
  unfold AIProvider.translateText
  exact resolves_ite (groq_translateText_resolves w t l)
    (resolves_ite (gemini_translateText_resolves w t l) (resolves_ok _))

lemma active_explainContext_resolves (w : World) (t b : String) :
    resolves (AIProvider.explainContext w t b) := by
  unfold AIProvider.explainContext
  exact resolves_ite (groq_explainContext_resolves w t b)
    (resolves_ite (gemini_explainContext_resolves w t b) (resolves_ok _))

lemma active_generateBookContent_resolves (w : World) (t a : String) (c : Nat) :
    resolves (AIProvider.generateBookContent w t a c) := by
  unfold AIProvider.generateBookContent
  exact resolves_ite (groq_generateBookContent_resolves w t a c)
    (resolves_ite (gemini_generateBookContent_resolves w t a c) (resolves_ok _))

lemma active_getBookSummary_resolves (w : World) (t : String) :
    resolves (AIProvider.getBookSummary w t) := by
  unfold AIProvider.getBookSummary
  exact resolves_ite (groq_getBookSummary_resolves w t)
    (resolves_ite (gemini_getBookSummary_resolves w t) (resolves_ok _))

lemma active_getBookRecap_resolves (w : World) (t : String) :
    resolves (AIProvider.getBookRecap w t) := by
  unfold AIProvider.getBookRecap
  exact resolves_ite (groq_getBookRecap_resolves w t)
    (resolves_ite (gemini_getBookRecap_resolves w t) (resolves_ok _))

/-! ## Claim theorems -/

/-- Claim C1: every capability operation resolves to a value of its declared
result shape under every world (credential absent, call throws, any reply),
never rejecting; when the live Groq or Gemini adapter's network call throws,
the operation delegates to the static fallback provider; and the static
fallback provider's operations never throw — with its own credential absent,
each resolves to its hardcoded literal response. -/
theorem C1_capability_calls_always_resolve :
    ∀ (w : World) (gk gsk gak hk : Bool) (now : Nat) (gn gemn hn : FetchOutcome)
      (query userMessage title author text targetLang bookTitle : String)
      (history : List ChatTurn) (prefs : UserPreferences) (chapter : Nat),
    resolves (AIProvider.searchBooks w query) ∧
    resolves (AIProvider.consultConcierge w userMessage history) ∧
    resolves (AIProvider.getOnboardingRecommendations w prefs) ∧
    resolves (AIProvider.generateReviews w title author) ∧
    resolves (AIProvider.chatAboutBook w bookTitle userMessage history) ∧
    resolves (AIProvider.translateText w text targetLang) ∧
    resolves (AIProvider.explainContext w text bookTitle) ∧
    resolves (AIProvider.generateBookContent w title author chapter) ∧
    resolves (AIProvider.getBookSummary w title) ∧
    resolves (AIProvider.getBookRecap w title) ∧
    (Groq.searchBooks (mkWorld true gsk gak hk now .throws gemn hn) query =
      .ok (FallbackSvc.searchBooks (mkWorld true gsk gak hk now .throws gemn hn) query)) ∧
    (Groq.consultConcierge (mkWorld true gsk gak hk now .throws gemn hn) userMessage history =
      .ok (FallbackSvc.consultConcierge (mkWorld true gsk gak hk now .throws gemn hn)
        userMessage history)) ∧
    (Groq.getOnboardingRecommendations (mkWorld true gsk gak hk now .throws gemn hn) prefs =
      .ok (FallbackSvc.getOnboardingRecommendations prefs)) ∧
    (Groq.generateReviews (mkWorld true gsk gak hk now .throws gemn hn) title author =
      .ok (FallbackSvc.generateReviews title author)) ∧
    (Groq.chatAboutBook (mkWorld true gsk gak hk now .throws gemn hn) bookTitle userMessage
        history =
      .ok (FallbackSvc.chatAboutBook (mkWorld true gsk gak hk now .throws gemn hn)
        bookTitle userMessage history)) ∧
    (Groq.translateText (mkWorld true gsk gak hk now .throws gemn hn) text targetLang =
      .ok (FallbackSvc.translateText (mkWorld true gsk gak hk now .throws gemn hn) text)) ∧
    (Groq.explainContext (mkWorld true gsk gak hk now .throws gemn hn) text bookTitle =
      .ok (FallbackSvc.explainContext (mkWorld true gsk gak hk now .throws gemn hn)
        text bookTitle)) ∧
    (Groq.generateBookContent (mkWorld true gsk gak hk now .throws gemn hn) title author
        chapter =
      .ok (FallbackSvc.generateBookContent (mkWorld true gsk gak hk now .throws gemn hn)
        title author chapter)) ∧
    (Groq.getBookSummary (mkWorld true gsk gak hk now .throws gemn hn) title =
      .ok (FallbackSvc.getBookSummary (mkWorld true gsk gak hk now .throws gemn hn) title)) ∧
    (Groq.getBookRecap (mkWorld true gsk gak hk now .throws gemn hn) title =
      .ok (FallbackSvc.getBookRecap (mkWorld true gsk gak hk now .throws gemn hn) title)) ∧
    (Gemini.searchBooks (mkWorld gk gsk true hk now gn .throws hn) query =
      .ok (FallbackSvc.searchBooks (mkWorld gk gsk true hk now gn .throws hn) query)) ∧
    (Gemini.consultConcierge (mkWorld gk gsk true hk now gn .throws hn) userMessage history =
      .ok (FallbackSvc.consultConcierge (mkWorld gk gsk true hk now gn .throws hn)
        userMessage history)) ∧
    (Gemini.getOnboardingRecommendations (mkWorld gk gsk true hk now gn .throws hn) prefs =
      .ok (FallbackSvc.getOnboardingRecommendations prefs)) ∧
    (Gemini.generateReviews (mkWorld gk gsk true hk now gn .throws hn) title author =
      .ok (FallbackSvc.generateReviews title author)) ∧
    (Gemini.chatAboutBook (mkWorld gk gsk true hk now gn .throws hn) bookTitle userMessage
        history =
      .ok (FallbackSvc.chatAboutBook (mkWorld gk gsk true hk now gn .throws hn)
        bookTitle userMessage history)) ∧
    (Gemini.translateText (mkWorld gk gsk true hk now gn .throws hn) text targetLang =
      .ok (FallbackSvc.translateText (mkWorld gk gsk true hk now gn .throws hn) text)) ∧
    (Gemini.explainContext (mkWorld gk gsk true hk now gn .throws hn) text bookTitle =
      .ok (FallbackSvc.explainContext (mkWorld gk gsk true hk now gn .throws hn)
        text bookTitle)) ∧
    (Gemini.generateBookContent (mkWorld gk gsk true hk now gn .throws hn) title author
        chapter =
      .ok (FallbackSvc.generateBookContent (mkWorld gk gsk true hk now gn .throws hn)
        title author chapter)) ∧
    (Gemini.getBookSummary (mkWorld gk gsk true hk now gn .throws hn) title =
      .ok (FallbackSvc.getBookSummary (mkWorld gk gsk true hk now gn .throws hn) title)) ∧
    (Gemini.getBookRecap (mkWorld gk gsk true hk now gn .throws hn) title =
      .ok (FallbackSvc.getBookRecap (mkWorld gk gsk true hk now gn .throws hn) title)) ∧
    (FallbackSvc.searchBooks (mkWorld gk gsk gak false now gn gemn hn) query =
      FallbackSvc.offlineSearchBooks) ∧
    (FallbackSvc.consultConcierge (mkWorld gk gsk gak false now gn gemn hn) userMessage
        history =
      { reply :=
          .str "I\x27m having trouble connecting to the cloud, but I\x27m here listening."
        suggestions := [] }) ∧
    (FallbackSvc.getOnboardingRecommendations prefs = FallbackSvc.offlineOnboardingBooks) ∧
    (FallbackSvc.generateReviews title author = FallbackSvc.offlineReviews) ∧
    (FallbackSvc.chatAboutBook (mkWorld gk gsk gak false now gn gemn hn) bookTitle
        userMessage history =
      "I can\x27t analyze this book right now due to connection issues.") ∧
    (FallbackSvc.translateText (mkWorld gk gsk gak false now gn gemn hn) text =
      "Translation service unavailable.") ∧
    (FallbackSvc.explainContext (mkWorld gk gsk gak false now gn gemn hn) text bookTitle =
      "Context service unavailable.") ∧
    (FallbackSvc.generateBookContent (mkWorld gk gsk gak false now gn gemn hn) title author
        chapter =
      "\n            <h3>Chapter " ++ toString chapter ++
      "</h3>\n            <p>We are currently unable to generate the full text for <strong>" ++
      title ++
      "</strong> due to high demand on our AI services.</p>\n            <p>Please try again later or upload a local PDF copy of this book to continue reading.</p>\n        ") ∧
    (FallbackSvc.getBookSummary (mkWorld gk gsk gak false now gn gemn hn) title =
      "Summary unavailable offline.") ∧
    (FallbackSvc.getBookRecap (mkWorld gk gsk gak false now gn gemn hn) title =
      "Recap unavailable offline.") := by
  intro w gk gsk gak hk now gn gemn hn query userMessage title author text targetLang
    bookTitle history prefs chapter
  exact ⟨active_searchBooks_resolves w query,
    active_consultConcierge_resolves w userMessage history,
    active_getOnboardingRecommendations_resolves w prefs,
    active_generateReviews_resolves w title author,
    active_chatAboutBook_resolves w bookTitle userMessage history,
    active_translateText_resolves w text targetLang,
    active_explainContext_resolves w text bookTitle,
    active_generateBookContent_resolves w title author chapter,
    active_getBookSummary_resolves w title,
    active_getBookRecap_resolves w title,
    rfl, rfl, rfl, rfl, rfl, rfl, rfl, rfl, rfl, rfl,
    rfl, rfl, rfl, rfl, rfl, rfl, rfl, rfl, rfl, rfl,
    rfl, rfl, rfl, rfl, rfl, rfl, rfl, rfl, rfl, rfl⟩

/-- Claim C2: the active provider is "groq" iff the Groq credential is
present, otherwise "gemini" iff the Gemini credential is present, otherwise
"fallback"; `getActiveProvider` returns exactly that identifier;
`isAIAvailable` is false iff the active provider is "fallback"; and all ten
exported capability functions are bound to the selected provider's
implementation. -/
theorem C2_provider_selection_and_binding :
    (∀ e : Env,
      ((AIProvider.getProvider e = "groq") ↔ e.groqKey = true) ∧
      ((AIProvider.getProvider e = "gemini") ↔
        (e.groqKey = false ∧ e.geminiSelectKey = true)) ∧
      ((AIProvider.getProvider e = "fallback") ↔
        (e.groqKey = false ∧ e.geminiSelectKey = false)) ∧
      (AIProvider.getActiveProvider e = AIProvider.getProvider e) ∧
      ((AIProvider.isAIAvailable e = false) ↔ AIProvider.getProvider e = "fallback")) ∧
    (∀ (gsk gak hk : Bool) (now : Nat) (gn gemn hn : FetchOutcome)
       (query userMessage title author text targetLang bookTitle : String)
       (history : List ChatTurn) (prefs : UserPreferences) (chapter : Nat),
      (AIProvider.searchBooks (mkWorld true gsk gak hk now gn gemn hn) query =
        Groq.searchBooks (mkWorld true gsk gak hk now gn gemn hn) query) ∧
      (AIProvider.consultConcierge (mkWorld true gsk gak hk now gn gemn hn) userMessage
          history =
        Groq.consultConcierge (mkWorld true gsk gak hk now gn gemn hn) userMessage history) ∧
      (AIProvider.getOnboardingRecommendations (mkWorld true gsk gak hk now gn gemn hn)
          prefs =
        Groq.getOnboardingRecommendations (mkWorld true gsk gak hk now gn gemn hn) prefs) ∧
      (AIProvider.generateReviews (mkWorld true gsk gak hk now gn gemn hn) title author =
        Groq.generateReviews (mkWorld true gsk gak hk now gn gemn hn) title author) ∧
      (AIProvider.chatAboutBook (mkWorld true gsk gak hk now gn gemn hn) bookTitle
          userMessage history =
        Groq.chatAboutBook (mkWorld true gsk gak hk now gn gemn hn) bookTitle userMessage
          history) ∧
      (AIProvider.translateText (mkWorld true gsk gak hk now gn gemn hn) text targetLang =
        Groq.translateText (mkWorld true gsk gak hk now gn gemn hn) text targetLang) ∧
      (AIProvider.explainContext (mkWorld true gsk gak hk now gn gemn hn) text bookTitle =
        Groq.explainContext (mkWorld true gsk gak hk now gn gemn hn) text bookTitle) ∧
      (AIProvider.generateBookContent (mkWorld true gsk gak hk now gn gemn hn) title author
          chapter =
        Groq.generateBookContent (mkWorld true gsk gak hk now gn gemn hn) title author
          chapter) ∧
      (AIProvider.getBookSummary (mkWorld true gsk gak hk now gn gemn hn) title =
        Groq.getBookSummary (mkWorld true gsk gak hk now gn gemn hn) title) ∧
      (AIProvider.getBookRecap (mkWorld true gsk gak hk now gn gemn hn) title =
        Groq.getBookRecap (mkWorld true gsk gak hk now gn gemn hn) title) ∧
      (AIProvider.searchBooks (mkWorld false true gak hk now gn gemn hn) query =
        Gemini.searchBooks (mkWorld false true gak hk now gn gemn hn) query) ∧
      (AIProvider.consultConcierge (mkWorld false true gak hk now gn gemn hn) userMessage
          history =
        Gemini.consultConcierge (mkWorld false true gak hk now gn gemn hn) userMessage
          history) ∧
      (AIProvider.getOnboardingRecommendations (mkWorld false true gak hk now gn gemn hn)
          prefs =
        Gemini.getOnboardingRecommendations (mkWorld false true gak hk now gn gemn hn)
          prefs) ∧
      (AIProvider.generateReviews (mkWorld false true gak hk now gn gemn hn) title author =
        Gemini.generateReviews (mkWorld false true gak hk now gn gemn hn) title author) ∧
      (AIProvider.chatAboutBook (mkWorld false true gak hk now gn gemn hn) bookTitle
          userMessage history =
        Gemini.chatAboutBook (mkWorld false true gak hk now gn gemn hn) bookTitle
          userMessage history) ∧
      (AIProvider.translateText (mkWorld false true gak hk now gn gemn hn) text targetLang =
        Gemini.translateText (mkWorld false true gak hk now gn gemn hn) text targetLang) ∧
      (AIProvider.explainContext (mkWorld false true gak hk now gn gemn hn) text bookTitle =
        Gemini.explainContext (mkWorld false true gak hk now gn gemn hn) text bookTitle) ∧
      (AIProvider.generateBookContent (mkWorld false true gak hk now gn gemn hn) title
          author chapter =
        Gemini.generateBookContent (mkWorld false true gak hk now gn gemn hn) title author
          chapter) ∧
      (AIProvider.getBookSummary (mkWorld false true gak hk now gn gemn hn) title =
        Gemini.getBookSummary (mkWorld false true gak hk now gn gemn hn) title) ∧
      (AIProvider.getBookRecap (mkWorld false true gak hk now gn gemn hn) title =
        Gemini.getBookRecap (mkWorld false true gak hk now gn gemn hn) title) ∧
      (AIProvider.searchBooks (mkWorld false false gak hk now gn gemn hn) query =
        .ok (FallbackSvc.searchBooks (mkWorld false false gak hk now gn gemn hn) query)) ∧
      (AIProvider.consultConcierge (mkWorld false false gak hk now gn gemn hn) userMessage
          history =
        .ok (FallbackSvc.consultConcierge (mkWorld false false gak hk now gn gemn hn)
          userMessage history)) ∧
      (AIProvider.getOnboardingRecommendations (mkWorld false false gak hk now gn gemn hn)
          prefs =
        .ok (FallbackSvc.getOnboardingRecommendations prefs)) ∧
      (AIProvider.generateReviews (mkWorld false false gak hk now gn gemn hn) title author =
        .ok (FallbackSvc.generateReviews title author)) ∧
      (AIProvider.chatAboutBook (mkWorld false false gak hk now gn gemn hn) bookTitle
          userMessage history =
        .ok (FallbackSvc.chatAboutBook (mkWorld false false gak hk now gn gemn hn)
          bookTitle userMessage history)) ∧
      (AIProvider.translateText (mkWorld false false gak hk now gn gemn hn) text targetLang =
        .ok (FallbackSvc.translateText (mkWorld false false gak hk now gn gemn hn) text)) ∧
      (AIProvider.explainContext (mkWorld false false gak hk now gn gemn hn) text bookTitle =
        .ok (FallbackSvc.explainContext (mkWorld false false gak hk now gn gemn hn) text
          bookTitle)) ∧
      (AIProvider.generateBookContent (mkWorld false false gak hk now gn gemn hn) title
          author chapter =
        .ok (FallbackSvc.generateBookContent (mkWorld false false gak hk now gn gemn hn)
          title author chapter)) ∧
      (AIProvider.getBookSummary (mkWorld false false gak hk now gn gemn hn) title =
        .ok (FallbackSvc.getBookSummary (mkWorld false false gak hk now gn gemn hn)
          title)) ∧
      (AIProvider.getBookRecap (mkWorld false false gak hk now gn gemn hn) title =
        .ok (FallbackSvc.getBookRecap (mkWorld false false gak hk now gn gemn hn)
          title))) := by
  constructor
  · intro e
    obtain ⟨gk, gsk, gak, hk⟩ := e
    cases gk <;> cases gsk <;> cases gak <;> cases hk <;>
      exact ⟨by decide, by decide, by decide, by decide, by decide⟩
  · intro gsk gak hk now gn gemn hn query userMessage title author text targetLang
      bookTitle history prefs chapter
    exact ⟨rfl, rfl, rfl, rfl, rfl, rfl, rfl, rfl, rfl, rfl,
      rfl, rfl, rfl, rfl, rfl, rfl, rfl, rfl, rfl, rfl,
      rfl, rfl, rfl, rfl, rfl, rfl, rfl, rfl, rfl, rfl⟩

/-- Claim C2 witness: the selection identifiers at concrete environments. -/
theorem C2_witness :
    AIProvider.getProvider ⟨false, true, false, false⟩ = "gemini" :=
  ((C2_provider_selection_and_binding.1 ⟨false, true, false, false⟩).2.1).mpr ⟨rfl, rfl⟩

/-- Claim C3 counterexample: with the Gemini credential present and a reply
that no parse attempt can handle, geminiService's `searchBooks` resolves to
the empty list — it does not take the static-fallback path, whose result
(the "offline-1" book) is different. -/
theorem C3_counterexample :
    Gemini.searchBooks
        (mkWorld false false true false 0 .throws (.ok (some "not json at all")) .throws)
        "any query" = .ok [] ∧
    (FallbackSvc.searchBooks
        (mkWorld false false true false 0 .throws (.ok (some "not json at all")) .throws)
        "any query").map Book.id = ["offline-1"] ∧
    (([] : List Book).map Book.id ≠ ["offline-1"]) :=
  ⟨rfl, rfl, by decide⟩

/-- Claim C3 (amended): for the Groq adapter's array-valued operations
(searchBooks, getOnboardingRecommendations, generateReviews) an unparseable
reply does take the static-fallback path; but the Groq `consultConcierge`
instead returns the raw reply text with no suggestions, and the Gemini
adapter's operations resolve to an empty list (or a default reply) rather
than invoking the static fallback. -/
theorem C3_unparseable_reply_paths :
    ∀ (s : String) (gk gsk gak hk : Bool) (now : Nat) (gn gemn hn : FetchOutcome)
      (query userMessage title author : String) (history : List ChatTurn)
      (prefs : UserPreferences),
    Groq.parseJSON s = none →
    jsonParse s = none →
    jsonParse (jsTrim (String.mk (geminiStrip s.data))) = none →
    s ≠ "" →
    (Groq.searchBooks (mkWorld true gsk gak hk now (.ok (some s)) gemn hn) query =
      .ok (FallbackSvc.searchBooks (mkWorld true gsk gak hk now (.ok (some s)) gemn hn)
        query)) ∧
    (Groq.getOnboardingRecommendations (mkWorld true gsk gak hk now (.ok (some s)) gemn hn)
        prefs =
      .ok (FallbackSvc.getOnboardingRecommendations prefs)) ∧
    (Groq.generateReviews (mkWorld true gsk gak hk now (.ok (some s)) gemn hn) title author =
      .ok (FallbackSvc.generateReviews title author)) ∧
    (Groq.consultConcierge (mkWorld true gsk gak hk now (.ok (some s)) gemn hn) userMessage
        history =
      .ok { reply := .str s, suggestions := [] }) ∧
    (Gemini.searchBooks (mkWorld gk gsk true hk now gn (.ok (some s)) hn) query = .ok []) ∧
    (Gemini.getOnboardingRecommendations (mkWorld gk gsk true hk now gn (.ok (some s)) hn)
        prefs = .ok []) ∧
    (Gemini.generateReviews (mkWorld gk gsk true hk now gn (.ok (some s)) hn) title author =
      .ok []) ∧
    (Gemini.consultConcierge (mkWorld gk gsk true hk now gn (.ok (some s)) hn) userMessage
        history =
      .ok { reply := .str "I\x27m pondering that thought...", suggestions := [] }) := by
  intro s gk gsk gak hk now gn gemn hn query userMessage title author history prefs
    h1 h2 h3 h4
  have hp : Gemini.parseJSON (some s) = .arr [] := by
    simp [Gemini.parseJSON, h2, h3, h4]
  refine ⟨?_, ?_, ?_, ?_, ?_, ?_, ?_, ?_⟩
  · simp [Groq.searchBooks, callGroq, tryOr, mkWorld, h1, Bind.bind, Except.bind]
  · simp [Groq.getOnboardingRecommendations, callGroq, tryOr, mkWorld, h1, Bind.bind,
      Except.bind]
  · simp [Groq.generateReviews, callGroq, tryOr, mkWorld, h1, Bind.bind, Except.bind]
  · simp [Groq.consultConcierge, callGroq, tryOr, mkWorld, h1, Bind.bind, Except.bind]
  · simp [Gemini.searchBooks, callGemini, tryOr, mkWorld, hp, mapIdxM, Bind.bind,
      Except.bind]
  · simp [Gemini.getOnboardingRecommendations, callGemini, tryOr, mkWorld, hp, mapIdxM,
      Bind.bind, Except.bind]
  · simp [Gemini.generateReviews, callGemini, tryOr, mkWorld, hp, mapIdxM, Bind.bind,
      Except.bind]
  · simp [Gemini.consultConcierge, callGemini, tryOr, mkWorld, hp, mapIdxM, getF, jsOr,
      Bind.bind, Except.bind]

/-- Claim C3 witness: the amended behavior at the concrete unparseable reply
"not json at all". -/
theorem C3_witness :
    Groq.searchBooks
        (mkWorld true false false false 0 (.ok (some "not json at all")) .throws .throws)
        "q" =
      .ok (FallbackSvc.searchBooks
        (mkWorld true false false false 0 (.ok (some "not json at all")) .throws .throws)
        "q") :=
  (C3_unparseable_reply_paths "not json at all" false false false false 0
    (.ok (some "not json at all")) .throws .throws "q" "m" "t" "a" [] ⟨none, [], "", false, 0⟩
    rfl rfl rfl (by decide)).1

/-- Claim C4 counterexample: on "```json x``` [1]" the fence regex matches
with unparseable content, and groqService's `parseJSON` signals unparseable
without attempting the bracketed-span extraction — although the bracket regex
would have extracted "[1]", which parses. -/
theorem C4_counterexample :
    Groq.parseJSON "```json x``` [1]" = none ∧
    bracketScan ("```json x``` [1]".data) = some ("[1]".data) ∧
    jsonParse "[1]" = some (.arr [.num 1]) :=
  ⟨rfl, rfl, rfl⟩

/-- Claim C4 (amended): groqService's `parseJSON` is a total function that
attempts a direct parse; when that fails and the fence regex matches, it
commits to parsing the trimmed fence capture, signalling unparseable on
failure without attempting span extraction; only when no fence matches does
it parse the bracket-regex span; on "not json at all" it signals unparseable
rather than throwing.  The Gemini variant performs only the first two
attempts (no span extraction) and signals unparseable with an empty array. -/
theorem C4_normalizer_total_and_staged :
    (∀ (s : String) (v : JValue), jsonParse s = some v → Groq.parseJSON s = some v) ∧
    (∀ (s : String) (c : List Char), jsonParse s = none → fenceScan s.data = some c →
      Groq.parseJSON s = jsonParse (jsTrim (String.mk c))) ∧
    (∀ (s : String) (sp : List Char), jsonParse s = none → fenceScan s.data = none →
      bracketScan s.data = some sp → Groq.parseJSON s = jsonParse (String.mk sp)) ∧
    (∀ s : String, jsonParse s = none → fenceScan s.data = none →
      bracketScan s.data = none → Groq.parseJSON s = none) ∧
    (Groq.parseJSON "not json at all" = none) ∧
    (Gemini.parseJSON (some "not json at all") = .arr []) ∧
    (Gemini.parseJSON (some "x [1] y") = .arr []) := by
  refine ⟨?_, ?_, ?_, ?_, rfl, rfl, rfl⟩
  · intro s v h
    simp [Groq.parseJSON, h]
  · intro s c h hf
    simp [Groq.parseJSON, h, hf]
  · intro s sp h hf hb
    simp [Groq.parseJSON, h, hf, hb]
  · intro s h hf hb
    simp [Groq.parseJSON, h, hf, hb]

/-- Claim C4 witness: the staged dispatch at concrete inputs. -/
theorem C4_witness :
    Groq.parseJSON "[1]" = some (.arr [.num 1]) :=
  C4_normalizer_total_and_staged.1 "[1]" (.arr [.num 1]) rfl

/-- Claim C5 counterexample: with the Hugging Face token present and a
parseable reply, the static fallback provider's `searchBooks` performs the
network call and returns the network-derived list, not the hardcoded literal
list. -/
theorem C5_counterexample :
    (FallbackSvc.searchBooks
        (mkWorld false false false true 0 .throws .throws
          (.ok (some "[\x7b\"title\":\"Network Book\"\x7d]"))) "any").map Book.id =
      ["fallback-0-0"] ∧
    (FallbackSvc.searchBooks
        (mkWorld false false false true 0 .throws .throws
          (.ok (some "[\x7b\"title\":\"Network Book\"\x7d]"))) "any").map Book.title =
      [some (.str "Network Book")] ∧
    FallbackSvc.offlineSearchBooks.map Book.id = ["offline-1"] ∧
    (["fallback-0-0"] : List String) ≠ ["offline-1"] :=
  ⟨rfl, rfl, rfl, by decide⟩

/-- Claim C5 (amended): the static fallback provider's onboarding and review
operations return fixed literal lists for every input with no network
dependency; its `searchBooks`, however, first attempts the Hugging Face call
when its token is present, and returns the hardcoded literal list exactly
when that token is absent or the call fails. -/
theorem C5_static_fallback_literals :
    ∀ (gk gsk gak hk : Bool) (now : Nat) (gn gemn hn : FetchOutcome)
      (q t a : String) (prefs : UserPreferences),
    FallbackSvc.getOnboardingRecommendations prefs = FallbackSvc.offlineOnboardingBooks ∧
    FallbackSvc.generateReviews t a = FallbackSvc.offlineReviews ∧
    FallbackSvc.searchBooks (mkWorld gk gsk gak false now gn gemn hn) q =
      FallbackSvc.offlineSearchBooks ∧
    FallbackSvc.searchBooks (mkWorld gk gsk gak hk now gn gemn .throws) q =
      FallbackSvc.offlineSearchBooks := by
  intro gk gsk gak hk now gn gemn hn q t a prefs
  refine ⟨rfl, rfl, rfl, ?_⟩
  cases hk <;> rfl

/-- Claim C6: with all credentials absent, `getOnboardingRecommendations` via
the bound provider returns the same fixed literal four-element sequence on
every call, independent of the input preferences and of every oracle, with
identical field values including ids. -/
theorem C6_fallback_onboarding_deterministic :
    ∀ (now now' : Nat) (gn gn' gemn gemn' hn hn' : FetchOutcome)
      (p1 p2 : UserPreferences),
    AIProvider.getOnboardingRecommendations (mkWorld false false false false now gn gemn hn)
        p1 =
      AIProvider.getOnboardingRecommendations
        (mkWorld false false false false now' gn' gemn' hn') p2 ∧
    AIProvider.getOnboardingRecommendations (mkWorld false false false false now gn gemn hn)
        p1 =
      .ok FallbackSvc.offlineOnboardingBooks ∧
    FallbackSvc.offlineOnboardingBooks.map Book.id = ["off-1", "off-2", "off-3", "off-4"] ∧
    FallbackSvc.offlineOnboardingBooks.map Book.title =
      [some (.str "The Great Gatsby"), some (.str "1984"), some (.str "Dune"),
       some (.str "Sapiens")] ∧
    FallbackSvc.offlineOnboardingBooks.map Book.author =
      [some (.str "F. Scott Fitzgerald"), some (.str "George Orwell"),
       some (.str "Frank Herbert"), some (.str "Yuval Noah Harari")] := by
  intro now now' gn gn' gemn gemn' hn hn' p1 p2
  have h1 : AIProvider.getOnboardingRecommendations
      (mkWorld false false false false now gn gemn hn) p1 =
      .ok FallbackSvc.offlineOnboardingBooks := rfl
  have h2 : AIProvider.getOnboardingRecommendations
      (mkWorld false false false false now' gn' gemn' hn') p2 =
      .ok FallbackSvc.offlineOnboardingBooks := rfl
  exact ⟨h1.trans h2.symm, h1, rfl, rfl, rfl⟩

/-- Claim C7: a live reply that parses to an empty JSON array is treated as
success — `searchBooks` resolves to the empty sequence, independent of every
other oracle (so no static-fallback call can have contributed), and raises no
error; this holds for both live adapters. -/
theorem C7_empty_parse_is_success :
    ∀ (gk gsk gak hk : Bool) (now : Nat) (gn gemn hn : FetchOutcome) (q s t : String),
    (Groq.parseJSON s = some (.arr []) →
      Groq.searchBooks (mkWorld true gsk gak hk now (.ok (some s)) gemn hn) q = .ok []) ∧
    (jsonParse t = some (.arr []) →
      Gemini.searchBooks (mkWorld gk gsk true hk now gn (.ok (some t)) hn) q = .ok []) := by
  intro gk gsk gak hk now gn gemn hn q s t
  constructor
  · intro h
    simp [Groq.searchBooks, callGroq, tryOr, mkWorld, h, mapIdxM, Bind.bind, Except.bind]
  · intro h
    have h0 : Gemini.parseJSON (some t) = .arr [] := by
      by_cases he : t = ""
      · rw [he] at h
        exact absurd h (by simp [show jsonParse "" = none from rfl])
      · simp [Gemini.parseJSON, he, h]
    simp [Gemini.searchBooks, callGemini, tryOr, mkWorld, h0, mapIdxM, Bind.bind,
      Except.bind]

/-- Claim C7 witness: the empty-array reply "[]" yields the empty result for
the Groq adapter. -/
theorem C7_witness :
    Groq.searchBooks (mkWorld true false false false 0 (.ok (some "[]")) .throws .throws)
      "query matching nothing" = .ok [] :=
  (C7_empty_parse_is_success false false false false 0 .throws .throws .throws
    "query matching nothing" "[]" "[]").1 rfl

/-- Claim C8 counterexample: a parsed onboarding item with no fields yields a
returned book whose match reason is `undefined` — it is not replaced by any
literal default. -/
theorem C8_counterexample :
    (Groq.getOnboardingRecommendations
        (mkWorld true false false false 0 (.ok (some "[{}]")) .throws .throws)
        ⟨none, [], "", false, 0⟩).map (fun bs => bs.map Book.matchReason) =
      .ok [none] :=
  rfl

/-- Claim C8 (amended): in the array-valued item mappings, the category list
and the fallback cover color are always present in the returned item and are
filled with a fixed literal default when missing; the match reason, however,
is copied through unchanged and stays `undefined` when the parsed item lacks
it. -/
theorem C8_optional_field_defaulting :
    ∀ (w : World) (i : Nat) (fs : List (String × JValue)),
    ((Groq.recItem w i (.obj fs)).map (fun b => b.coverColor.isSome) = .ok true) ∧
    ((Groq.recItem w i (.obj fs)).map (fun b => b.categories.isSome) = .ok true) ∧
    ((Groq.recItem w i (.obj fs)).map Book.matchReason = .ok (jlookup fs "matchReason")) ∧
    (jlookup fs "coverColor" = none →
      (Groq.recItem w i (.obj fs)).map Book.coverColor = .ok (some (.str "#e2e8f0"))) ∧
    (jlookup fs "categories" = none →
      (Groq.recItem w i (.obj fs)).map Book.categories = .ok (some (.arr []))) ∧
    ((Groq.searchItem w i (.obj fs)).map
        (fun b => (b.coverColor.isSome, b.categories.isSome)) = .ok (true, true)) ∧
    ((Gemini.searchItem w i (.obj fs)).map
        (fun b => (b.coverColor.isSome, b.categories.isSome)) = .ok (true, true)) ∧
    (jlookup fs "coverColor" = none →
      (Gemini.searchItem w i (.obj fs)).map Book.coverColor = .ok (some (.str "#E2E8F0"))) ∧
    ((Gemini.recItem w i (.obj fs)).map Book.matchReason = .ok (jlookup fs "matchReason")) := by
  intro w i fs
  refine ⟨?_, ?_, ?_, ?_, ?_, ?_, ?_, ?_, ?_⟩
  · simp [Groq.recItem, getF, Bind.bind, Except.bind, Except.map]
  · simp [Groq.recItem, getF, Bind.bind, Except.bind, Except.map]
  · simp [Groq.recItem, getF, Bind.bind, Except.bind, Except.map]
  · intro h
    simp [Groq.recItem, getF, Bind.bind, Except.bind, Except.map, h, jsOr]
  · intro h
    simp [Groq.recItem, getF, Bind.bind, Except.bind, Except.map, h, jsOr]
  · simp [Groq.searchItem, getF, Bind.bind, Except.bind, Except.map]
  · simp [Gemini.searchItem, getF, Bind.bind, Except.bind, Except.map]
  · intro h
    simp [Gemini.searchItem, getF, Bind.bind, Except.bind, Except.map, h, jsOr]
  · simp [Gemini.recItem, getF, Bind.bind, Except.bind, Except.map]

/-- Claim C8 witness: the cover-color default at the empty parsed item. -/
theorem C8_witness :
    (Groq.recItem (mkWorld false false false false 0 .throws .throws .throws) 0
        (.obj [])).map Book.coverColor = .ok (some (.str "#e2e8f0")) :=
  (C8_optional_field_defaulting (mkWorld false false false false 0 .throws .throws .throws)
    0 []).2.2.2.1 rfl

/-- Claim C9 counterexample: a parsed review item with rating 0 is mapped by
the Groq adapter to rating 4 (0 is falsy, so the default applies before
clamping), not to min(5, max(1, 0)) = 1 as the claimed formula states. -/
theorem C9_counterexample :
    (Groq.generateReviews
        (mkWorld true false false false 0 (.ok (some "[\x7b\"rating\":0\x7d]")) .throws .throws)
        "Dune" "Frank Herbert").map (fun rs => rs.map Review.rating) =
      .ok [some (.num 4)] ∧
    ¬((4 : Int) = min 5 (max 1 0)) :=
  ⟨rfl, by decide⟩

/-- Claim C9 (amended): the Groq adapter's review mapping sets
rating = min(5, max(1, r)) where r is the item's rating when present and
nonzero, and 4 when the rating is missing or zero (falsy); every such
returned rating lies in [1, 5].  The Gemini adapter's review mapping copies
the parsed rating through unmodified, performing no clamping. -/
theorem C9_rating_clamping :
    ∀ (i : Nat) (fs : List (String × JValue)),
    (jlookup fs "rating" = none →
      (Groq.reviewItem i (.obj fs)).map Review.rating = .ok (some (.num 4))) ∧
    (∀ n : Int, jlookup fs "rating" = some (.num n) → n ≠ 0 →
      (Groq.reviewItem i (.obj fs)).map Review.rating =
        .ok (some (.num (min 5 (max 1 n)))) ∧
      1 ≤ min 5 (max 1 n) ∧ min 5 (max 1 n) ≤ 5) ∧
    (jlookup fs "rating" = some (.num 0) →
      (Groq.reviewItem i (.obj fs)).map Review.rating = .ok (some (.num 4))) ∧
    ((Gemini.reviewItem i (.obj fs)).map Review.rating = .ok (jlookup fs "rating")) := by
  intro i fs
  refine ⟨?_, ?_, ?_, ?_⟩
  · intro h
    simp [Groq.reviewItem, getF, Bind.bind, Except.bind, Except.map, h, jsOr,
      mathMax2, mathMin2, toNumber]
  · intro n h hn
    refine ⟨?_, ?_, ?_⟩
    · simp [Groq.reviewItem, getF, Bind.bind, Except.bind, Except.map, h, jsOr,
        jsTruthy, hn, mathMax2, mathMin2, toNumber]
    · exact le_min (by norm_num) (le_max_left 1 n)
    · exact min_le_left 5 (max 1 n)
  · intro h
    simp [Groq.reviewItem, getF, Bind.bind, Except.bind, Except.map, h, jsOr,
      jsTruthy, mathMax2, mathMin2, toNumber]
  · simp [Gemini.reviewItem, getF, Bind.bind, Except.bind, Except.map]

/-- Claim C9 witness: the clamp at a concrete rating of 7. -/
theorem C9_witness :
    (Groq.reviewItem 0 (.obj [("rating", .num 7)])).map Review.rating =
      .ok (some (.num (min 5 (max 1 7)))) :=
  ((C9_rating_clamping 0 [("rating", .num 7)]).2.1 7 rfl (by decide)).1

/-- Claim C10: whenever the Groq adapter's `translateText` takes the fallback
path (credential absent or the live call throwing), the result is identical
for any two target languages on the same text — the adapter drops
`targetLang` when delegating, and the fallback provider's `translateText`
takes no target language at all. -/
theorem C10_translate_fallback_language_independent :
    ∀ (gsk gak hk : Bool) (now : Nat) (gn gemn hn : FetchOutcome)
      (text lang1 lang2 : String),
    (Groq.translateText (mkWorld false gsk gak hk now gn gemn hn) text lang1 =
      Groq.translateText (mkWorld false gsk gak hk now gn gemn hn) text lang2) ∧
    (Groq.translateText (mkWorld true gsk gak hk now .throws gemn hn) text lang1 =
      Groq.translateText (mkWorld true gsk gak hk now .throws gemn hn) text lang2) ∧
    (Groq.translateText (mkWorld false gsk gak hk now gn gemn hn) text lang1 =
      .ok (FallbackSvc.translateText (mkWorld false gsk gak hk now gn gemn hn) text)) ∧
    (Groq.translateText (mkWorld true gsk gak hk now .throws gemn hn) text lang1 =
      .ok (FallbackSvc.translateText (mkWorld true gsk gak hk now .throws gemn hn) text)) := by
  intro gsk gak hk now gn gemn hn text lang1 lang2
  exact ⟨rfl, rfl, rfl, rfl⟩

end Suitcase
